import Mathlib

/-!
Verification of `packages/engine/Source/Scene/VoxelRenderResources.js`
(Cesium 1.110.1) against its natural-language specification.

The constructor `VoxelRenderResources(primitive)` is embedded as a pure
Lean function from a `VoxelPrimitive` configuration snapshot to the
produced render-resources value paired with the primitive as it stands
after the constructor returns (the constructor assigns
`primitive._uniformMap` at line 46, so the primitive is threaded
explicitly as state).

Collaborators that the constructor uses but whose sources are not part
of the extracted repository slice (`ShaderBuilder`, `combine`,
`defined`, the shader fragment string constants) are modelled from the
specification, as marked in their doc comments.  Shader fragment texts
are opaque distinct tokens (`Frag`): the assembled fragment-stage
source is their concatenation in call order, so ordering facts are
stated on the ordered list of tokens.
-/

/-- Stage selector, mirroring `ShaderDestination` (only the two stages
used by this file are needed). -/
inductive ShaderDestination
  | vertex
  | fragment
deriving DecidableEq

/-- A dynamically-typed JavaScript value as it can reach `addDefine` or
appear in a shape's `shaderDefines` mapping: `undef` is JavaScript
`undefined` (a define with no substitution text), `boolean`, integer
`num`, or arbitrary text `str`.  Numbers occurring in this file are
non-negative integers (counts, slot indices, sample counts). -/
inductive JsVal
  | undef
  | boolean (b : Bool)
  | num (n : Nat)
  | str (s : String)
deriving DecidableEq

/-- JavaScript truth of `defined(value)` for a `JsVal`: everything but
`undefined` is defined.  Modelled from the spec: `Core/defined.js` is
not in the extracted slice; the source comment at lines 153-154 fixes
the semantics (`if value is undefined, don't define it`). -/
def JsVal.isDefined : JsVal → Bool
  | JsVal.undef => false
  | _ => true

/-- The shader source-text constants imported at the top of
`VoxelRenderResources.js`, as opaque distinct tokens, plus the
user-supplied custom fragment text and the literal `"#line 0"` marker
string.  Modelled from the spec: the fragment library files are not in
the extracted slice and are treated as trusted opaque strings (§1, §6),
so only their identity and order matter. -/
inductive Frag
  | VoxelVS
  | customText (s : String)
  | lineMarker
  | Octree
  | IntersectionUtils
  | Megatexture
  | IntersectClippingPlanes
  | IntersectDepth
  | convertUvToBox
  | IntersectBox
  | Intersection
  | IntersectCylinder
  | convertUvToCylinder
  | IntersectEllipsoid
  | convertUvToEllipsoid
  | VoxelFS
deriving DecidableEq

/-- Modelled from the spec (§4.1): `Renderer/ShaderBuilder.js` is not in
the extracted slice.  Two independent stage accumulators, each holding
an ordered uniform-declaration list (type, name), an insertion-ordered
define table (name, value) and an ordered sequence of source fragments;
every operation appends and insertion order is preserved exactly. -/
structure ShaderBuilder where
  vertexLines : List Frag := []
  fragmentLines : List Frag := []
  vertexUniforms : List (String × String) := []
  fragmentUniforms : List (String × String) := []
  vertexDefines : List (String × JsVal) := []
  fragmentDefines : List (String × JsVal) := []
deriving DecidableEq

/-- Operation `ShaderBuilder.addUniform(type, name, destination)`: append one
uniform declaration to the destination stage. -/
def ShaderBuilder.addUniform (sb : ShaderBuilder) (type name : String)
    (dest : ShaderDestination) : ShaderBuilder :=
  match dest with
  | ShaderDestination.vertex =>
      { sb with vertexUniforms := sb.vertexUniforms ++ [(type, name)] }
  | ShaderDestination.fragment =>
      { sb with fragmentUniforms := sb.fragmentUniforms ++ [(type, name)] }

/-- Operation `ShaderBuilder.addDefine(name, value, destination)`: append one
define (value `undef` means a define with no replacement text). -/
def ShaderBuilder.addDefine (sb : ShaderBuilder) (name : String) (value : JsVal)
    (dest : ShaderDestination) : ShaderBuilder :=
  match dest with
  | ShaderDestination.vertex =>
      { sb with vertexDefines := sb.vertexDefines ++ [(name, value)] }
  | ShaderDestination.fragment =>
      { sb with fragmentDefines := sb.fragmentDefines ++ [(name, value)] }

/-- Operation `ShaderBuilder.addVertexLines(lines)`: append source fragments to the
vertex stage in call order. -/
def ShaderBuilder.addVertexLines (sb : ShaderBuilder) (lines : List Frag) :
    ShaderBuilder :=
  { sb with vertexLines := sb.vertexLines ++ lines }

/-- Operation `ShaderBuilder.addFragmentLines(lines)`: append source fragments to
the fragment stage in call order. -/
def ShaderBuilder.addFragmentLines (sb : ShaderBuilder) (lines : List Frag) :
    ShaderBuilder :=
  { sb with fragmentLines := sb.fragmentLines ++ lines }

/-- A zero-argument uniform value accessor function, modelled as an
opaque identifier; only its identity matters here. -/
abbrev Accessor := Nat

/-- A uniform map: insertion-ordered association of uniform name to
value accessor. -/
abbrev UniformMap := List (String × Accessor)

/-- Modelled from the spec: `Core/combine.js` is not in the extracted
slice.  `combine(object1, object2)` merges two maps; per §3 ("later
merges override earlier entries on key collision") and §4.2 ("custom
entries override base entries"), the second argument wins on key
collision.  §9 flags this precedence as an open question of the spec,
so claims that hinge on the collision case are not settled from this
model; its uses below are either collision-free or collision-
insensitive. -/
def combine (object1 object2 : UniformMap) : UniformMap :=
  object1.filter (fun p => (object2.lookup p.1).isNone) ++ object2

/-- Componentwise vector of three numbers (`Core/Cartesian3.js`, not in
the extracted slice; only equality against zero is used here, so the
components are modelled as integers). -/
structure Cartesian3 where
  x : Int
  y : Int
  z : Int
deriving DecidableEq

/-- The constant `Cartesian3.ZERO`. -/
def Cartesian3.ZERO : Cartesian3 := { x := 0, y := 0, z := 0 }

/-- Function `Cartesian3.equals`: componentwise equality. -/
def Cartesian3.equals (a b : Cartesian3) : Bool :=
  a.x == b.x && a.y == b.y && a.z == b.z

/-- The clipping-plane collaborator (§6): enabled flag, plane count
(`length`), union-vs-intersection mode flag. -/
structure ClippingPlaneCollection where
  enabled : Bool
  length : Nat
  unionClippingRegions : Bool
deriving DecidableEq

/-- The custom-shader collaborator (§6): fragment source text, uniform
map (name to accessor) and declared uniform set (name to declared
type, insertion-ordered as iterated by the `for..in` loop). -/
structure CustomShader where
  fragmentShaderText : String
  uniformMap : UniformMap
  uniforms : List (String × String)
deriving DecidableEq

/-- The shape collaborator (§6): `shaderDefines` (insertion-ordered
name to optional value) and `shaderMaximumIntersectionsLength`. -/
structure VoxelShape where
  shaderDefines : List (String × JsVal)
  shaderMaximumIntersectionsLength : Nat
deriving DecidableEq

/-- The provider collaborator: exposes the shape kind string read at
line 124 (`primitive._provider.shape`). -/
structure VoxelProvider where
  shape : String
deriving DecidableEq

/-- The traversal collaborator (§6): current integer sample count. -/
structure VoxelTraversal where
  sampleCount : Nat
deriving DecidableEq

/-- The primitive configuration snapshot: exactly the fields of
`VoxelPrimitive` that `VoxelRenderResources` reads (leading
underscores of the source field names dropped). -/
structure VoxelPrimitive where
  customShader : CustomShader
  uniformMap : UniformMap
  clippingPlanes : Option ClippingPlaneCollection
  depthTest : Bool
  provider : VoxelProvider
  shape : VoxelShape
  paddingBefore : Cartesian3
  paddingAfter : Cartesian3
  useLogDepth : Bool
  jitter : Bool
  nearestSampling : Bool
  traversal : VoxelTraversal
deriving DecidableEq

/-- The produced render-resources value: the fields assigned to `this`
by the constructor. -/
structure VoxelRenderResources where
  shaderBuilder : ShaderBuilder
  uniformMap : UniformMap
  clippingPlanes : Option ClippingPlaneCollection
  clippingPlanesLength : Nat
deriving DecidableEq

/-- The custom-shader uniform declaration loop, lines 48-58: for each
declared uniform add `addUniform(uniform.type, uniformName, FRAGMENT)`
in iteration order. -/
def addCustomShaderUniforms (shaderBuilder : ShaderBuilder)
    (uniforms : List (String × String)) : ShaderBuilder :=
  uniforms.foldl
    (fun sb u => sb.addUniform u.2 u.1 ShaderDestination.fragment)
    shaderBuilder

/-- The shape-define merge loop, lines 148-160: skip entries whose value
is `undefined`; an entry whose value is `true` is defined with no
substitution text (`undefined` value); every other entry is defined
with its value. -/
def addShapeDefines (shaderBuilder : ShaderBuilder)
    (shapeDefines : List (String × JsVal)) : ShaderBuilder :=
  shapeDefines.foldl
    (fun sb kv =>
      if kv.2.isDefined then
        sb.addDefine kv.1
          (if kv.2 = JsVal.boolean true then JsVal.undef else kv.2)
          ShaderDestination.fragment
      else sb)
    shaderBuilder

/-- Lines 76-79: the effective clipping plane count,
`defined(clippingPlanes) && clippingPlanes.enabled ? clippingPlanes.length : 0`. -/
def clipLen (clippingPlanes : Option ClippingPlaneCollection) : Nat :=
  match clippingPlanes with
  | some cp => if cp.enabled then cp.length else 0
  | none => 0

/-- The flag `clippingPlanes.unionClippingRegions`, read at lines 106 and 172
only when the effective count is positive (so only when the collection
is present and enabled); the `none` default is never reached on those
paths. -/
def clipUnion (clippingPlanes : Option ClippingPlaneCollection) : Bool :=
  match clippingPlanes with
  | some cp => cp.unionClippingRegions
  | none => false

/-- Lines 95-114: when the effective clipping plane count is positive,
add the `CLIPPING_PLANES` and `CLIPPING_PLANES_COUNT` defines, the
`CLIPPING_PLANES_UNION` define when in union mode, and the clipping
intersection fragment. -/
def addClippingStage (clippingPlanesLength : Nat) (unionClippingRegions : Bool)
    (sb : ShaderBuilder) : ShaderBuilder :=
  if 0 < clippingPlanesLength then
    let sbA : ShaderBuilder :=
      (sb.addDefine "CLIPPING_PLANES" JsVal.undef
        ShaderDestination.fragment).addDefine "CLIPPING_PLANES_COUNT"
        (JsVal.num clippingPlanesLength) ShaderDestination.fragment
    let sbB : ShaderBuilder :=
      if unionClippingRegions then
        sbA.addDefine "CLIPPING_PLANES_UNION" JsVal.undef
          ShaderDestination.fragment
      else sbA
    sbB.addFragmentLines [Frag.IntersectClippingPlanes]
  else sb

/-- Lines 115-122: when depth testing is on, add the `DEPTH_TEST`
define and the depth intersection fragment. -/
def addDepthStage (depthTest : Bool) (sb : ShaderBuilder) : ShaderBuilder :=
  if depthTest then
    (sb.addDefine "DEPTH_TEST" JsVal.undef
      ShaderDestination.fragment).addFragmentLines [Frag.IntersectDepth]
  else sb

/-- Lines 124-144: the shape-kind branch.  BOX additionally gets the
`SHAPE_BOX` define and places its conversion fragment before its
intersection fragment; CYLINDER and ELLIPSOID place the intersection
fragment first.  There is no `else` branch: an unrecognized shape kind
adds nothing and the constructor continues. -/
def addShapeKindStage (shapeType : String) (sb : ShaderBuilder) : ShaderBuilder :=
  if shapeType = "BOX" then
    (sb.addDefine "SHAPE_BOX" JsVal.undef
      ShaderDestination.fragment).addFragmentLines
      [Frag.convertUvToBox, Frag.IntersectBox, Frag.Intersection]
  else if shapeType = "CYLINDER" then
    sb.addFragmentLines
      [Frag.IntersectCylinder, Frag.Intersection, Frag.convertUvToCylinder]
  else if shapeType = "ELLIPSOID" then
    sb.addFragmentLines
      [Frag.IntersectEllipsoid, Frag.Intersection, Frag.convertUvToEllipsoid]
  else sb

/-- Lines 162-190: the intersection-slot allocation.  The running
counter starts at the shape's `shaderMaximumIntersectionsLength`; the
clipping slot (if any) gets the current counter and advances it by 1
for exactly one plane, 2 for several planes in union mode, 1 otherwise;
the depth slot (if any) gets the current counter and advances it by 1;
the final counter is emitted as `INTERSECTION_COUNT`. -/
def addIntersectionStage (intersectionCount clippingPlanesLength : Nat)
    (unionClippingRegions depthTest : Bool) (sb : ShaderBuilder) : ShaderBuilder :=
  -- lines 164-169
  let sbA : ShaderBuilder :=
    if 0 < clippingPlanesLength then
      sb.addDefine "CLIPPING_PLANES_INTERSECTION_INDEX"
        (JsVal.num intersectionCount) ShaderDestination.fragment
    else sb
  -- lines 170-176
  let intersectionCountA : Nat :=
    if 0 < clippingPlanesLength then
      if clippingPlanesLength = 1 then intersectionCount + 1
      else if unionClippingRegions then intersectionCount + 2
      else intersectionCount + 1
    else intersectionCount
  -- lines 178-185
  let sbB : ShaderBuilder :=
    if depthTest then
      sbA.addDefine "DEPTH_INTERSECTION_INDEX"
        (JsVal.num intersectionCountA) ShaderDestination.fragment
    else sbA
  let intersectionCountB : Nat :=
    if depthTest then intersectionCountA + 1 else intersectionCountA
  -- lines 186-190
  sbB.addDefine "INTERSECTION_COUNT" (JsVal.num intersectionCountB)
    ShaderDestination.fragment

/-- Lines 192-224: the remaining conditional defines (`PADDING`,
`LOG_DEPTH_READ_ONLY`, `JITTER`, `NEAREST_SAMPLING`) and the
unconditional `SAMPLE_COUNT` define, whose value is the sample count
rendered as decimal text by a template literal. -/
def addMiscDefinesStage (primitive : VoxelPrimitive) (sb : ShaderBuilder) :
    ShaderBuilder :=
  -- lines 192-198
  let sbA : ShaderBuilder :=
    if !Cartesian3.equals primitive.paddingBefore Cartesian3.ZERO
        || !Cartesian3.equals primitive.paddingAfter Cartesian3.ZERO then
      sb.addDefine "PADDING" JsVal.undef ShaderDestination.fragment
    else sb
  -- lines 202-208
  let sbB : ShaderBuilder :=
    if primitive.useLogDepth then
      sbA.addDefine "LOG_DEPTH_READ_ONLY" JsVal.undef
        ShaderDestination.fragment
    else sbA
  -- lines 209-211
  let sbC : ShaderBuilder :=
    if primitive.jitter then
      sbB.addDefine "JITTER" JsVal.undef ShaderDestination.fragment
    else sbB
  -- lines 212-218
  let sbD : ShaderBuilder :=
    if primitive.nearestSampling then
      sbC.addDefine "NEAREST_SAMPLING" JsVal.undef ShaderDestination.fragment
    else sbC
  -- lines 219-224
  sbD.addDefine "SAMPLE_COUNT"
    (JsVal.str (toString primitive.traversal.sampleCount))
    ShaderDestination.fragment

/-- The constructor `VoxelRenderResources(primitive)`, lines 30-225,
translated block by block (the blocks are the stage functions above,
in source order).  Returns the constructed resources together with the
primitive as left after the constructor (line 46 reassigns
`primitive._uniformMap`).  The constructor body contains no `throw`
and none of its callees can fail, so the embedding is a total
function. -/
def buildVoxelRenderResources (primitive : VoxelPrimitive) :
    VoxelRenderResources × VoxelPrimitive :=
  -- line 31
  let sb0 : ShaderBuilder := {}
  -- lines 44-46
  let customShader : CustomShader := primitive.customShader
  let uniformMap : UniformMap :=
    combine primitive.uniformMap customShader.uniformMap
  let primitive1 : VoxelPrimitive := { primitive with uniformMap := uniformMap }
  -- lines 48-58
  let sb1 : ShaderBuilder := addCustomShaderUniforms sb0 customShader.uniforms
  -- lines 61-65
  let sb2 : ShaderBuilder :=
    sb1.addUniform "sampler2D" "u_megatextureTextures[METADATA_COUNT]"
      ShaderDestination.fragment
  -- lines 75-79
  let clippingPlanes : Option ClippingPlaneCollection := primitive1.clippingPlanes
  let clippingPlanesLength : Nat := clipLen clippingPlanes
  -- line 85
  let sb3 : ShaderBuilder := sb2.addVertexLines [Frag.VoxelVS]
  -- lines 87-93
  let sb4 : ShaderBuilder := sb3.addFragmentLines
    [Frag.customText customShader.fragmentShaderText, Frag.lineMarker,
     Frag.Octree, Frag.IntersectionUtils, Frag.Megatexture]
  -- lines 95-114
  let sb5 : ShaderBuilder :=
    addClippingStage clippingPlanesLength (clipUnion clippingPlanes) sb4
  -- lines 115-122
  let sb6 : ShaderBuilder := addDepthStage primitive1.depthTest sb5
  -- lines 124-144
  let sb7 : ShaderBuilder := addShapeKindStage primitive1.provider.shape sb6
  -- line 146
  let sb8 : ShaderBuilder := sb7.addFragmentLines [Frag.VoxelFS]
  -- lines 148-160
  let sb9 : ShaderBuilder := addShapeDefines sb8 primitive1.shape.shaderDefines
  -- lines 162-190
  let sb10 : ShaderBuilder :=
    addIntersectionStage primitive1.shape.shaderMaximumIntersectionsLength
      clippingPlanesLength (clipUnion clippingPlanes) primitive1.depthTest sb9
  -- lines 192-224
  let sb11 : ShaderBuilder := addMiscDefinesStage primitive1 sb10
  ({ shaderBuilder := sb11
     uniformMap := uniformMap
     clippingPlanes := clippingPlanes
     clippingPlanesLength := clippingPlanesLength },
   primitive1)

/-- The fragment-stage define table of a build. -/
def fragmentDefinesOf (p : VoxelPrimitive) : List (String × JsVal) :=
  (buildVoxelRenderResources p).1.shaderBuilder.fragmentDefines

/-- The fragment-stage source-fragment sequence of a build. -/
def fragmentLinesOf (p : VoxelPrimitive) : List Frag :=
  (buildVoxelRenderResources p).1.shaderBuilder.fragmentLines

/-- The fragment-stage uniform-declaration list of a build. -/
def fragmentUniformsOf (p : VoxelPrimitive) : List (String × String) :=
  (buildVoxelRenderResources p).1.shaderBuilder.fragmentUniforms

/-- First-match lookup in a define table. -/
def lookupDefine (name : String) : List (String × JsVal) → Option JsVal
  | [] => none
  | kv :: rest => if kv.1 = name then some kv.2 else lookupDefine name rest

/-- A define name is present in a define table. -/
def hasDefine (name : String) (l : List (String × JsVal)) : Bool :=
  (lookupDefine name l).isSome

/-! ### Field-level facts about the builder operations -/

@[simp] theorem addDefine_fragmentDefines (sb : ShaderBuilder) (n : String) (v : JsVal) :
    (sb.addDefine n v ShaderDestination.fragment).fragmentDefines =
      sb.fragmentDefines ++ [(n, v)] := rfl

@[simp] theorem addDefine_fragmentLines (sb : ShaderBuilder) (n : String) (v : JsVal) :
    (sb.addDefine n v ShaderDestination.fragment).fragmentLines =
      sb.fragmentLines := rfl

@[simp] theorem addDefine_fragmentUniforms (sb : ShaderBuilder) (n : String) (v : JsVal) :
    (sb.addDefine n v ShaderDestination.fragment).fragmentUniforms =
      sb.fragmentUniforms := rfl

@[simp] theorem addUniform_fragmentDefines (sb : ShaderBuilder) (t n : String) :
    (sb.addUniform t n ShaderDestination.fragment).fragmentDefines =
      sb.fragmentDefines := rfl

@[simp] theorem addUniform_fragmentLines (sb : ShaderBuilder) (t n : String) :
    (sb.addUniform t n ShaderDestination.fragment).fragmentLines =
      sb.fragmentLines := rfl

@[simp] theorem addUniform_fragmentUniforms (sb : ShaderBuilder) (t n : String) :
    (sb.addUniform t n ShaderDestination.fragment).fragmentUniforms =
      sb.fragmentUniforms ++ [(t, n)] := rfl

@[simp] theorem addFragmentLines_fragmentDefines (sb : ShaderBuilder) (ls : List Frag) :
    (sb.addFragmentLines ls).fragmentDefines = sb.fragmentDefines := rfl

@[simp] theorem addFragmentLines_fragmentLines (sb : ShaderBuilder) (ls : List Frag) :
    (sb.addFragmentLines ls).fragmentLines = sb.fragmentLines ++ ls := rfl

@[simp] theorem addFragmentLines_fragmentUniforms (sb : ShaderBuilder) (ls : List Frag) :
    (sb.addFragmentLines ls).fragmentUniforms = sb.fragmentUniforms := rfl

@[simp] theorem addVertexLines_fragmentDefines (sb : ShaderBuilder) (ls : List Frag) :
    (sb.addVertexLines ls).fragmentDefines = sb.fragmentDefines := rfl

@[simp] theorem addVertexLines_fragmentLines (sb : ShaderBuilder) (ls : List Frag) :
    (sb.addVertexLines ls).fragmentLines = sb.fragmentLines := rfl

@[simp] theorem addVertexLines_fragmentUniforms (sb : ShaderBuilder) (ls : List Frag) :
    (sb.addVertexLines ls).fragmentUniforms = sb.fragmentUniforms := rfl

/-! ### The two loops, unfolded list by list -/

theorem addCustomShaderUniforms_nil (sb : ShaderBuilder) :
    addCustomShaderUniforms sb [] = sb := rfl

theorem addCustomShaderUniforms_cons (sb : ShaderBuilder) (u : String × String)
    (us : List (String × String)) :
    addCustomShaderUniforms sb (u :: us) =
      addCustomShaderUniforms (sb.addUniform u.2 u.1 ShaderDestination.fragment) us := rfl

@[simp] theorem addCustomShaderUniforms_fragmentDefines
    (us : List (String × String)) : ∀ sb : ShaderBuilder,
    (addCustomShaderUniforms sb us).fragmentDefines = sb.fragmentDefines := by
  induction us with
  | nil => intro sb; rfl
  | cons u us ih =>
      intro sb
      rw [addCustomShaderUniforms_cons, ih, addUniform_fragmentDefines]

@[simp] theorem addCustomShaderUniforms_fragmentLines
    (us : List (String × String)) : ∀ sb : ShaderBuilder,
    (addCustomShaderUniforms sb us).fragmentLines = sb.fragmentLines := by
  induction us with
  | nil => intro sb; rfl
  | cons u us ih =>
      intro sb
      rw [addCustomShaderUniforms_cons, ih, addUniform_fragmentLines]

@[simp] theorem addCustomShaderUniforms_fragmentUniforms
    (us : List (String × String)) : ∀ sb : ShaderBuilder,
    (addCustomShaderUniforms sb us).fragmentUniforms =
      sb.fragmentUniforms ++ us.map (fun u => (u.2, u.1)) := by
  induction us with
  | nil => intro sb; simp [addCustomShaderUniforms_nil]
  | cons u us ih =>
      intro sb
      rw [addCustomShaderUniforms_cons, ih, addUniform_fragmentUniforms]
      simp

/-- The define entries that the shape-define loop (lines 148-160)
emits, in order: entries with `undefined` value are skipped, a `true`
value is canonicalized to no-text (`undef`). -/
def shapeDefineSeg (shapeDefines : List (String × JsVal)) : List (String × JsVal) :=
  shapeDefines.filterMap
    (fun kv =>
      if kv.2.isDefined then
        some (kv.1, if kv.2 = JsVal.boolean true then JsVal.undef else kv.2)
      else none)

theorem shapeDefineSeg_nil : shapeDefineSeg [] = [] := rfl

theorem shapeDefineSeg_cons (kv : String × JsVal) (ds : List (String × JsVal)) :
    shapeDefineSeg (kv :: ds) =
      (if kv.2.isDefined then
        [(kv.1, if kv.2 = JsVal.boolean true then JsVal.undef else kv.2)]
       else []) ++ shapeDefineSeg ds := by
  by_cases h : kv.2.isDefined <;> simp [shapeDefineSeg, h]

theorem addShapeDefines_cons (sb : ShaderBuilder) (kv : String × JsVal)
    (ds : List (String × JsVal)) :
    addShapeDefines sb (kv :: ds) =
      addShapeDefines
        (if kv.2.isDefined then
          sb.addDefine kv.1
            (if kv.2 = JsVal.boolean true then JsVal.undef else kv.2)
            ShaderDestination.fragment
         else sb) ds := rfl

@[simp] theorem addShapeDefines_fragmentDefines
    (ds : List (String × JsVal)) : ∀ sb : ShaderBuilder,
    (addShapeDefines sb ds).fragmentDefines =
      sb.fragmentDefines ++ shapeDefineSeg ds := by
  induction ds with
  | nil => intro sb; simp [addShapeDefines, shapeDefineSeg_nil]
  | cons kv ds ih =>
      intro sb
      rw [addShapeDefines_cons, ih, shapeDefineSeg_cons]
      by_cases h : kv.2.isDefined <;> simp [h]

@[simp] theorem addShapeDefines_fragmentLines
    (ds : List (String × JsVal)) : ∀ sb : ShaderBuilder,
    (addShapeDefines sb ds).fragmentLines = sb.fragmentLines := by
  induction ds with
  | nil => intro sb; rfl
  | cons kv ds ih =>
      intro sb
      rw [addShapeDefines_cons, ih]
      by_cases h : kv.2.isDefined <;> simp [h]

@[simp] theorem addShapeDefines_fragmentUniforms
    (ds : List (String × JsVal)) : ∀ sb : ShaderBuilder,
    (addShapeDefines sb ds).fragmentUniforms = sb.fragmentUniforms := by
  induction ds with
  | nil => intro sb; rfl
  | cons kv ds ih =>
      intro sb
      rw [addShapeDefines_cons, ih]
      by_cases h : kv.2.isDefined <;> simp [h]

/-! ### What each stage contributes, as explicit data -/

/-- Defines contributed by the clipping stage. -/
def clipDefineSeg (len : Nat) (u : Bool) : List (String × JsVal) :=
  if 0 < len then
    ("CLIPPING_PLANES", JsVal.undef) :: ("CLIPPING_PLANES_COUNT", JsVal.num len)
      :: (if u then [("CLIPPING_PLANES_UNION", JsVal.undef)] else [])
  else []

/-- Fragment lines contributed by the clipping stage. -/
def clipLineSeg (len : Nat) : List Frag :=
  if 0 < len then [Frag.IntersectClippingPlanes] else []

/-- Defines contributed by the depth stage. -/
def depthDefineSeg (d : Bool) : List (String × JsVal) :=
  if d then [("DEPTH_TEST", JsVal.undef)] else []

/-- Fragment lines contributed by the depth stage. -/
def depthLineSeg (d : Bool) : List Frag :=
  if d then [Frag.IntersectDepth] else []

/-- Defines contributed by the shape-kind branch. -/
def shapeKindDefineSeg (s : String) : List (String × JsVal) :=
  if s = "BOX" then [("SHAPE_BOX", JsVal.undef)] else []

/-- Fragment lines contributed by the shape-kind branch. -/
def shapeKindLineSeg (s : String) : List Frag :=
  if s = "BOX" then [Frag.convertUvToBox, Frag.IntersectBox, Frag.Intersection]
  else if s = "CYLINDER" then
    [Frag.IntersectCylinder, Frag.Intersection, Frag.convertUvToCylinder]
  else if s = "ELLIPSOID" then
    [Frag.IntersectEllipsoid, Frag.Intersection, Frag.convertUvToEllipsoid]
  else []

/-- How far the clipping feature advances the intersection-slot
counter: 1 for exactly one plane, 2 for several planes in union mode,
1 for several planes in intersection mode, 0 when clipping is off. -/
def clipAdvance (len : Nat) (u : Bool) : Nat :=
  if 0 < len then (if len = 1 then 1 else if u then 2 else 1) else 0

/-- Defines contributed by the intersection-slot allocation stage. -/
def interDefineSeg (m len : Nat) (u d : Bool) : List (String × JsVal) :=
  (if 0 < len then [("CLIPPING_PLANES_INTERSECTION_INDEX", JsVal.num m)] else [])
  ++ (if d then [("DEPTH_INTERSECTION_INDEX", JsVal.num (m + clipAdvance len u))]
      else [])
  ++ [("INTERSECTION_COUNT",
       JsVal.num (m + clipAdvance len u + (if d then 1 else 0)))]

/-- Defines contributed by the final conditional-define stage, as a
function of the configuration fields that stage reads. -/
def miscDefineSeg (pb pa : Cartesian3) (uld jit ns : Bool) (sc : Nat) :
    List (String × JsVal) :=
  (if !Cartesian3.equals pb Cartesian3.ZERO
      || !Cartesian3.equals pa Cartesian3.ZERO then
    [("PADDING", JsVal.undef)]
   else [])
  ++ (if uld then [("LOG_DEPTH_READ_ONLY", JsVal.undef)] else [])
  ++ (if jit then [("JITTER", JsVal.undef)] else [])
  ++ (if ns then [("NEAREST_SAMPLING", JsVal.undef)] else [])
  ++ [("SAMPLE_COUNT", JsVal.str (toString sc))]

/-! ### Per-stage field lemmas -/

@[simp] theorem addClippingStage_fragmentDefines (len : Nat) (u : Bool)
    (sb : ShaderBuilder) :
    (addClippingStage len u sb).fragmentDefines =
      sb.fragmentDefines ++ clipDefineSeg len u := by
  by_cases h : 0 < len <;> by_cases hu : u <;>
    simp [addClippingStage, clipDefineSeg, h, hu]

@[simp] theorem addClippingStage_fragmentLines (len : Nat) (u : Bool)
    (sb : ShaderBuilder) :
    (addClippingStage len u sb).fragmentLines =
      sb.fragmentLines ++ clipLineSeg len := by
  by_cases h : 0 < len <;> by_cases hu : u <;>
    simp [addClippingStage, clipLineSeg, h, hu]

@[simp] theorem addClippingStage_fragmentUniforms (len : Nat) (u : Bool)
    (sb : ShaderBuilder) :
    (addClippingStage len u sb).fragmentUniforms = sb.fragmentUniforms := by
  by_cases h : 0 < len <;> by_cases hu : u <;>
    simp [addClippingStage, h, hu]

@[simp] theorem addDepthStage_fragmentDefines (d : Bool) (sb : ShaderBuilder) :
    (addDepthStage d sb).fragmentDefines =
      sb.fragmentDefines ++ depthDefineSeg d := by
  by_cases h : d <;> simp [addDepthStage, depthDefineSeg, h]

@[simp] theorem addDepthStage_fragmentLines (d : Bool) (sb : ShaderBuilder) :
    (addDepthStage d sb).fragmentLines = sb.fragmentLines ++ depthLineSeg d := by
  by_cases h : d <;> simp [addDepthStage, depthLineSeg, h]

@[simp] theorem addDepthStage_fragmentUniforms (d : Bool) (sb : ShaderBuilder) :
    (addDepthStage d sb).fragmentUniforms = sb.fragmentUniforms := by
  by_cases h : d <;> simp [addDepthStage, h]

@[simp] theorem addShapeKindStage_fragmentDefines (s : String)
    (sb : ShaderBuilder) :
    (addShapeKindStage s sb).fragmentDefines =
      sb.fragmentDefines ++ shapeKindDefineSeg s := by
  by_cases hb : s = "BOX" <;> by_cases hc : s = "CYLINDER" <;>
    by_cases he : s = "ELLIPSOID" <;>
    simp [addShapeKindStage, shapeKindDefineSeg, hb, hc, he]

@[simp] theorem addShapeKindStage_fragmentLines (s : String)
    (sb : ShaderBuilder) :
    (addShapeKindStage s sb).fragmentLines =
      sb.fragmentLines ++ shapeKindLineSeg s := by
  by_cases hb : s = "BOX" <;> by_cases hc : s = "CYLINDER" <;>
    by_cases he : s = "ELLIPSOID" <;>
    simp [addShapeKindStage, shapeKindLineSeg, hb, hc, he]

@[simp] theorem addShapeKindStage_fragmentUniforms (s : String)
    (sb : ShaderBuilder) :
    (addShapeKindStage s sb).fragmentUniforms = sb.fragmentUniforms := by
  by_cases hb : s = "BOX" <;> by_cases hc : s = "CYLINDER" <;>
    by_cases he : s = "ELLIPSOID" <;>
    simp [addShapeKindStage, hb, hc, he]

@[simp] theorem addIntersectionStage_fragmentDefines (m len : Nat) (u d : Bool)
    (sb : ShaderBuilder) :
    (addIntersectionStage m len u d sb).fragmentDefines =
      sb.fragmentDefines ++ interDefineSeg m len u d := by
  by_cases h : 0 < len <;> by_cases h1 : len = 1 <;> by_cases hu : u <;>
    by_cases hd : d <;>
    simp [addIntersectionStage, interDefineSeg, clipAdvance, h, h1, hu, hd]

@[simp] theorem addIntersectionStage_fragmentLines (m len : Nat) (u d : Bool)
    (sb : ShaderBuilder) :
    (addIntersectionStage m len u d sb).fragmentLines = sb.fragmentLines := by
  by_cases h : 0 < len <;> by_cases hd : d <;>
    simp [addIntersectionStage, h, hd]

@[simp] theorem addIntersectionStage_fragmentUniforms (m len : Nat) (u d : Bool)
    (sb : ShaderBuilder) :
    (addIntersectionStage m len u d sb).fragmentUniforms =
      sb.fragmentUniforms := by
  by_cases h : 0 < len <;> by_cases hd : d <;>
    simp [addIntersectionStage, h, hd]

@[simp] theorem addMiscDefinesStage_fragmentDefines (p : VoxelPrimitive)
    (sb : ShaderBuilder) :
    (addMiscDefinesStage p sb).fragmentDefines =
      sb.fragmentDefines ++ miscDefineSeg p.paddingBefore p.paddingAfter
        p.useLogDepth p.jitter p.nearestSampling p.traversal.sampleCount := by
  by_cases hp : (!Cartesian3.equals p.paddingBefore Cartesian3.ZERO
      || !Cartesian3.equals p.paddingAfter Cartesian3.ZERO) = true <;>
    by_cases hl : p.useLogDepth <;> by_cases hj : p.jitter <;>
    by_cases hn : p.nearestSampling <;>
    simp [addMiscDefinesStage, miscDefineSeg, hp, hl, hj, hn]

@[simp] theorem addMiscDefinesStage_fragmentLines (p : VoxelPrimitive)
    (sb : ShaderBuilder) :
    (addMiscDefinesStage p sb).fragmentLines = sb.fragmentLines := by
  by_cases hp : (!Cartesian3.equals p.paddingBefore Cartesian3.ZERO
      || !Cartesian3.equals p.paddingAfter Cartesian3.ZERO) = true <;>
    by_cases hl : p.useLogDepth <;> by_cases hj : p.jitter <;>
    by_cases hn : p.nearestSampling <;>
    simp [addMiscDefinesStage, hp, hl, hj, hn]

@[simp] theorem addMiscDefinesStage_fragmentUniforms (p : VoxelPrimitive)
    (sb : ShaderBuilder) :
    (addMiscDefinesStage p sb).fragmentUniforms = sb.fragmentUniforms := by
  by_cases hp : (!Cartesian3.equals p.paddingBefore Cartesian3.ZERO
      || !Cartesian3.equals p.paddingAfter Cartesian3.ZERO) = true <;>
    by_cases hl : p.useLogDepth <;> by_cases hj : p.jitter <;>
    by_cases hn : p.nearestSampling <;>
    simp [addMiscDefinesStage, hp, hl, hj, hn]

@[simp] theorem empty_fragmentDefines :
    ({} : ShaderBuilder).fragmentDefines = [] := rfl

@[simp] theorem empty_fragmentLines :
    ({} : ShaderBuilder).fragmentLines = [] := rfl

@[simp] theorem empty_fragmentUniforms :
    ({} : ShaderBuilder).fragmentUniforms = [] := rfl

/-! ### What one build produces, field by field -/

/-- The resources' `uniformMap` field is the merged map (lines 45, 73). -/
theorem build_uniformMap (p : VoxelPrimitive) :
    (buildVoxelRenderResources p).1.uniformMap =
      combine p.uniformMap p.customShader.uniformMap := rfl

/-- The resources' `clippingPlanes` field is the primitive's collection
(line 81). -/
theorem build_clippingPlanes (p : VoxelPrimitive) :
    (buildVoxelRenderResources p).1.clippingPlanes = p.clippingPlanes := rfl

/-- The resources' `clippingPlanesLength` field is the effective count
(lines 76-79, 82). -/
theorem build_clippingPlanesLength (p : VoxelPrimitive) :
    (buildVoxelRenderResources p).1.clippingPlanesLength =
      clipLen p.clippingPlanes := rfl

/-- After the constructor, the primitive is unchanged except that its
uniform map has been replaced by the merged map (line 46). -/
theorem build_primitive_after (p : VoxelPrimitive) :
    (buildVoxelRenderResources p).2 =
      { p with uniformMap := combine p.uniformMap p.customShader.uniformMap } := rfl

/-- Master decomposition of the fragment-stage define table: the
concatenation, in source order, of the clipping, depth, shape-kind,
shape-define, intersection-allocation and conditional-define stages'
contributions. -/
theorem fragmentDefinesOf_eq (p : VoxelPrimitive) :
    fragmentDefinesOf p =
      clipDefineSeg (clipLen p.clippingPlanes) (clipUnion p.clippingPlanes)
      ++ depthDefineSeg p.depthTest
      ++ shapeKindDefineSeg p.provider.shape
      ++ shapeDefineSeg p.shape.shaderDefines
      ++ interDefineSeg p.shape.shaderMaximumIntersectionsLength
          (clipLen p.clippingPlanes) (clipUnion p.clippingPlanes) p.depthTest
      ++ miscDefineSeg p.paddingBefore p.paddingAfter p.useLogDepth p.jitter
          p.nearestSampling p.traversal.sampleCount := by
  rcases p with ⟨cs, um, cp, dt, prov, shp, pb, pa, uld, jit, ns, trav⟩
  simp [fragmentDefinesOf, buildVoxelRenderResources]

/-- Master decomposition of the fragment-stage source sequence: the
custom shader text with its line marker, the shared baseline fragments,
then the clipping, depth and shape-kind contributions, then the
baseline voxel fragment shader. -/
theorem fragmentLinesOf_eq (p : VoxelPrimitive) :
    fragmentLinesOf p =
      [Frag.customText p.customShader.fragmentShaderText, Frag.lineMarker,
       Frag.Octree, Frag.IntersectionUtils, Frag.Megatexture]
      ++ clipLineSeg (clipLen p.clippingPlanes)
      ++ depthLineSeg p.depthTest
      ++ shapeKindLineSeg p.provider.shape
      ++ [Frag.VoxelFS] := by
  rcases p with ⟨cs, um, cp, dt, prov, shp, pb, pa, uld, jit, ns, trav⟩
  simp [fragmentLinesOf, buildVoxelRenderResources]

/-- Master decomposition of the fragment-stage uniform declarations:
one declaration per custom-shader uniform, in declaration order, then
the reserved megatexture sampler-array declaration. -/
theorem fragmentUniformsOf_eq (p : VoxelPrimitive) :
    fragmentUniformsOf p =
      p.customShader.uniforms.map (fun u => (u.2, u.1))
      ++ [("sampler2D", "u_megatextureTextures[METADATA_COUNT]")] := by
  rcases p with ⟨cs, um, cp, dt, prov, shp, pb, pa, uld, jit, ns, trav⟩
  simp [fragmentUniformsOf, buildVoxelRenderResources]

/-! ### Lookup machinery for define tables -/

theorem lookupDefine_append (k : String) (l1 l2 : List (String × JsVal)) :
    lookupDefine k (l1 ++ l2) =
      match lookupDefine k l1 with
      | some v => some v
      | none => lookupDefine k l2 := by
  induction l1 with
  | nil => simp [lookupDefine]
  | cons kv rest ih => by_cases h : kv.1 = k <;> simp [lookupDefine, h, ih]

theorem lookupDefine_eq_none_iff (k : String) (l : List (String × JsVal)) :
    lookupDefine k l = none ↔ k ∉ l.map Prod.fst := by
  induction l with
  | nil => simp [lookupDefine]
  | cons kv rest ih =>
      by_cases h : kv.1 = k <;> simp [lookupDefine, h, ih] <;> tauto

theorem hasDefine_iff_mem (k : String) (l : List (String × JsVal)) :
    hasDefine k l = true ↔ k ∈ l.map Prod.fst := by
  rw [hasDefine, Option.isSome_iff_ne_none]
  rw [ne_eq, lookupDefine_eq_none_iff]
  tauto

theorem hasDefine_append (k : String) (l1 l2 : List (String × JsVal)) :
    hasDefine k (l1 ++ l2) = (hasDefine k l1 || hasDefine k l2) := by
  rw [hasDefine, hasDefine, hasDefine, lookupDefine_append]
  rcases hl : lookupDefine k l1 with _ | v <;> simp

/-- The shape-define loop only emits keys that occur in the shape's
`shaderDefines` mapping. -/
theorem shapeDefineSeg_names_subset (ds : List (String × JsVal)) (k : String)
    (h : k ∈ (shapeDefineSeg ds).map Prod.fst) : k ∈ ds.map Prod.fst := by
  induction ds with
  | nil => simpa [shapeDefineSeg_nil] using h
  | cons kv rest ih =>
      rw [shapeDefineSeg_cons, List.map_append, List.mem_append] at h
      rw [List.map_cons, List.mem_cons]
      rcases h with h | h
      · by_cases hd : kv.2.isDefined
        · left
          simpa [hd] using h
        · simp [hd] at h
      · exact Or.inr (ih h)

theorem shapeDefineSeg_lookup_none (ds : List (String × JsVal)) (k : String)
    (h : k ∉ ds.map Prod.fst) : lookupDefine k (shapeDefineSeg ds) = none := by
  rw [lookupDefine_eq_none_iff]
  exact fun hm => h (shapeDefineSeg_names_subset ds k hm)

/-- Every define name the constructor itself can add (as opposed to
names coming from the shape's own `shaderDefines` mapping). -/
def reservedDefineNames : List String :=
  ["CLIPPING_PLANES", "CLIPPING_PLANES_COUNT", "CLIPPING_PLANES_UNION",
   "DEPTH_TEST", "SHAPE_BOX", "CLIPPING_PLANES_INTERSECTION_INDEX",
   "DEPTH_INTERSECTION_INDEX", "INTERSECTION_COUNT", "PADDING",
   "LOG_DEPTH_READ_ONLY", "JITTER", "NEAREST_SAMPLING", "SAMPLE_COUNT"]

/-- Well-formedness of a configuration: the shape's own define names do
not collide with the define names the constructor adds itself.  The
spec (§4.1) makes such a redeclaration an invariant violation, and the
builder modelled here appends without deduplication, so claims about
the presence or value of a constructor-added define assume this. -/
def shapeDefinesDisjoint (p : VoxelPrimitive) : Prop :=
  ∀ k ∈ p.shape.shaderDefines.map Prod.fst, k ∉ reservedDefineNames

theorem shapeDefinesDisjoint_lookup_none (p : VoxelPrimitive)
    (h : shapeDefinesDisjoint p) (k : String) (hk : k ∈ reservedDefineNames) :
    lookupDefine k (shapeDefineSeg p.shape.shaderDefines) = none :=
  shapeDefineSeg_lookup_none _ _ (fun hm => h k hm hk)

theorem lookupDefine_ite (k : String) (c : Prop) [Decidable c]
    (l1 l2 : List (String × JsVal)) :
    lookupDefine k (if c then l1 else l2) =
      if c then lookupDefine k l1 else lookupDefine k l2 :=
  apply_ite (lookupDefine k) c l1 l2

/-- Claim C1: the intersection-slot allocation starts a counter at the
shape's `shaderMaximumIntersectionsLength`; when clipping is enabled
(effective count positive) the clipping slot index is the current
counter, which then advances by 1 for exactly one plane, by 2 for more
than one plane in union mode, and by 1 otherwise; when depth testing is
enabled the depth slot index is the current counter, which then
advances by 1; the final counter is emitted as the `INTERSECTION_COUNT`
define. -/
theorem intersection_slot_allocation (p : VoxelPrimitive)
    (h : shapeDefinesDisjoint p) :
    lookupDefine "CLIPPING_PLANES_INTERSECTION_INDEX" (fragmentDefinesOf p) =
      (if 0 < clipLen p.clippingPlanes then
        some (JsVal.num p.shape.shaderMaximumIntersectionsLength)
       else none)
    ∧ lookupDefine "DEPTH_INTERSECTION_INDEX" (fragmentDefinesOf p) =
      (if p.depthTest then
        some (JsVal.num (p.shape.shaderMaximumIntersectionsLength +
          clipAdvance (clipLen p.clippingPlanes) (clipUnion p.clippingPlanes)))
       else none)
    ∧ lookupDefine "INTERSECTION_COUNT" (fragmentDefinesOf p) =
      some (JsVal.num (p.shape.shaderMaximumIntersectionsLength +
        clipAdvance (clipLen p.clippingPlanes) (clipUnion p.clippingPlanes) +
        (if p.depthTest then 1 else 0))) := by
  have hs1 := shapeDefinesDisjoint_lookup_none p h
    "CLIPPING_PLANES_INTERSECTION_INDEX" (by decide)
  have hs2 := shapeDefinesDisjoint_lookup_none p h
    "DEPTH_INTERSECTION_INDEX" (by decide)
  have hs3 := shapeDefinesDisjoint_lookup_none p h
    "INTERSECTION_COUNT" (by decide)
  rw [fragmentDefinesOf_eq]
  by_cases hl : 0 < clipLen p.clippingPlanes
  · by_cases h1 : clipLen p.clippingPlanes = 1 <;>
      by_cases hu : clipUnion p.clippingPlanes <;>
      by_cases hd : p.depthTest <;>
      refine ⟨?_, ?_, ?_⟩ <;>
      simp [lookupDefine_append, lookupDefine_ite, lookupDefine,
        clipDefineSeg, depthDefineSeg, shapeKindDefineSeg, interDefineSeg,
        miscDefineSeg, clipAdvance, hs1, hs2, hs3, hl, h1, hu, hd]
  · by_cases hd : p.depthTest <;>
      refine ⟨?_, ?_, ?_⟩ <;>
      simp [lookupDefine_append, lookupDefine_ite, lookupDefine,
        clipDefineSeg, depthDefineSeg, shapeKindDefineSeg, interDefineSeg,
        miscDefineSeg, clipAdvance, hs1, hs2, hs3, hl, hd]

/-- A configuration with `shaderMaximumIntersectionsLength = 5`, three
clipping planes in intersection mode, and depth testing enabled. -/
def witnessPrimitiveC1 : VoxelPrimitive :=
  { customShader :=
      { fragmentShaderText := "customShaderText", uniformMap := [], uniforms := [] }
    uniformMap := []
    clippingPlanes :=
      some { enabled := true, length := 3, unionClippingRegions := false }
    depthTest := true
    provider := { shape := "ELLIPSOID" }
    shape := { shaderDefines := [], shaderMaximumIntersectionsLength := 5 }
    paddingBefore := Cartesian3.ZERO
    paddingAfter := Cartesian3.ZERO
    useLogDepth := false
    jitter := false
    nearestSampling := false
    traversal := { sampleCount := 64 } }

/-- Witness for C1: with `M = 5`, three clipping planes in intersection
mode and depth testing on, the clipping slot index is 5, the depth slot
index is 6 and the total intersection count is 7 (`M + 1 + 1`). -/
theorem intersection_slot_allocation_witness :
    lookupDefine "CLIPPING_PLANES_INTERSECTION_INDEX"
      (fragmentDefinesOf witnessPrimitiveC1) = some (JsVal.num 5)
    ∧ lookupDefine "DEPTH_INTERSECTION_INDEX"
      (fragmentDefinesOf witnessPrimitiveC1) = some (JsVal.num 6)
    ∧ lookupDefine "INTERSECTION_COUNT"
      (fragmentDefinesOf witnessPrimitiveC1) = some (JsVal.num 7) := by
  have h := intersection_slot_allocation witnessPrimitiveC1
    (by intro k hk; simp [witnessPrimitiveC1] at hk)
  simpa [witnessPrimitiveC1, clipLen, clipUnion, clipAdvance] using h

/-- Function `Cartesian3.equals` decides componentwise equality. -/
theorem Cartesian3.equals_iff (a b : Cartesian3) :
    Cartesian3.equals a b = true ↔ a = b := by
  rcases a with ⟨ax, ay, az⟩
  rcases b with ⟨bx, by', bz⟩
  simp [Cartesian3.equals, Cartesian3.mk.injEq, and_assoc]

/-- Function `Cartesian3.equals` is `false` exactly on distinct vectors. -/
theorem Cartesian3.equals_eq_false_iff (a b : Cartesian3) :
    Cartesian3.equals a b = false ↔ a ≠ b := by
  rw [ne_eq, ← Cartesian3.equals_iff]
  cases Cartesian3.equals a b <;> simp

/-! ### The define names each stage can contribute -/

theorem mem_clipDefineSeg_names (k : String) (len : Nat) (u : Bool) :
    k ∈ (clipDefineSeg len u).map Prod.fst ↔
      (0 < len ∧ (k = "CLIPPING_PLANES" ∨ k = "CLIPPING_PLANES_COUNT"
        ∨ (k = "CLIPPING_PLANES_UNION" ∧ u = true))) := by
  by_cases hl : 0 < len <;> by_cases hu : u <;>
    simp [clipDefineSeg, hl, hu]

theorem mem_depthDefineSeg_names (k : String) (d : Bool) :
    k ∈ (depthDefineSeg d).map Prod.fst ↔ (k = "DEPTH_TEST" ∧ d = true) := by
  by_cases hd : d <;> simp [depthDefineSeg, hd]

theorem mem_shapeKindDefineSeg_names (k s : String) :
    k ∈ (shapeKindDefineSeg s).map Prod.fst ↔
      (k = "SHAPE_BOX" ∧ s = "BOX") := by
  by_cases hb : s = "BOX" <;> simp [shapeKindDefineSeg, hb]

theorem mem_interDefineSeg_names (k : String) (m len : Nat) (u d : Bool) :
    k ∈ (interDefineSeg m len u d).map Prod.fst ↔
      ((k = "CLIPPING_PLANES_INTERSECTION_INDEX" ∧ 0 < len)
       ∨ (k = "DEPTH_INTERSECTION_INDEX" ∧ d = true)
       ∨ k = "INTERSECTION_COUNT") := by
  by_cases hl : 0 < len <;> by_cases hd : d <;>
    simp [interDefineSeg, hl, hd]

theorem mem_miscDefineSeg_names (k : String) (pb pa : Cartesian3)
    (uld jit ns : Bool) (sc : Nat) :
    k ∈ (miscDefineSeg pb pa uld jit ns sc).map Prod.fst ↔
      ((k = "PADDING" ∧ (pb ≠ Cartesian3.ZERO ∨ pa ≠ Cartesian3.ZERO))
       ∨ (k = "LOG_DEPTH_READ_ONLY" ∧ uld = true)
       ∨ (k = "JITTER" ∧ jit = true)
       ∨ (k = "NEAREST_SAMPLING" ∧ ns = true)
       ∨ k = "SAMPLE_COUNT") := by
  by_cases hb : pb = Cartesian3.ZERO <;> by_cases ha : pa = Cartesian3.ZERO <;>
    by_cases hl : uld <;> by_cases hj : jit <;> by_cases hn : ns <;>
    simp [miscDefineSeg, Cartesian3.equals_iff, Cartesian3.equals_eq_false_iff,
      hb, ha, hl, hj, hn]

/-! ### The fragment lines each stage can contribute -/

theorem mem_clipLineSeg (f : Frag) (len : Nat) :
    f ∈ clipLineSeg len ↔ (0 < len ∧ f = Frag.IntersectClippingPlanes) := by
  by_cases hl : 0 < len <;> simp [clipLineSeg, hl]

theorem mem_depthLineSeg (f : Frag) (d : Bool) :
    f ∈ depthLineSeg d ↔ (d = true ∧ f = Frag.IntersectDepth) := by
  by_cases hd : d <;> simp [depthLineSeg, hd]

theorem mem_shapeKindLineSeg (f : Frag) (s : String) :
    f ∈ shapeKindLineSeg s ↔
      ((s = "BOX" ∧ (f = Frag.convertUvToBox ∨ f = Frag.IntersectBox
          ∨ f = Frag.Intersection))
       ∨ (s = "CYLINDER" ∧ (f = Frag.IntersectCylinder ∨ f = Frag.Intersection
          ∨ f = Frag.convertUvToCylinder))
       ∨ (s = "ELLIPSOID" ∧ (f = Frag.IntersectEllipsoid ∨ f = Frag.Intersection
          ∨ f = Frag.convertUvToEllipsoid))) := by
  by_cases hb : s = "BOX" <;> by_cases hc : s = "CYLINDER" <;>
    by_cases he : s = "ELLIPSOID" <;>
    simp [shapeKindLineSeg, hb, hc, he] <;> tauto

/-- Claim C6: `PADDING` is present iff a padding vector is non-zero;
`JITTER`, `NEAREST_SAMPLING` and `LOG_DEPTH_READ_ONLY` are present iff
their flags are set; `DEPTH_TEST` is present iff depth testing is on;
`CLIPPING_PLANES` is present iff clipping is enabled with positive
count; and when depth testing or clipping is disabled, the dependent
fragment and slot-index define are absent. -/
theorem conditional_defines_correct (p : VoxelPrimitive)
    (h : shapeDefinesDisjoint p) :
    (hasDefine "PADDING" (fragmentDefinesOf p) = true ↔
      (p.paddingBefore ≠ Cartesian3.ZERO ∨ p.paddingAfter ≠ Cartesian3.ZERO))
    ∧ (hasDefine "JITTER" (fragmentDefinesOf p) = true ↔ p.jitter = true)
    ∧ (hasDefine "NEAREST_SAMPLING" (fragmentDefinesOf p) = true ↔
      p.nearestSampling = true)
    ∧ (hasDefine "LOG_DEPTH_READ_ONLY" (fragmentDefinesOf p) = true ↔
      p.useLogDepth = true)
    ∧ (hasDefine "DEPTH_TEST" (fragmentDefinesOf p) = true ↔ p.depthTest = true)
    ∧ (hasDefine "CLIPPING_PLANES" (fragmentDefinesOf p) = true ↔
      0 < clipLen p.clippingPlanes)
    ∧ (p.depthTest = false →
      hasDefine "DEPTH_INTERSECTION_INDEX" (fragmentDefinesOf p) = false
      ∧ Frag.IntersectDepth ∉ fragmentLinesOf p)
    ∧ (clipLen p.clippingPlanes = 0 →
      hasDefine "CLIPPING_PLANES_INTERSECTION_INDEX" (fragmentDefinesOf p) = false
      ∧ Frag.IntersectClippingPlanes ∉ fragmentLinesOf p) := by
  have hsP := shapeDefinesDisjoint_lookup_none p h "PADDING" (by decide)
  have hsJ := shapeDefinesDisjoint_lookup_none p h "JITTER" (by decide)
  have hsN := shapeDefinesDisjoint_lookup_none p h "NEAREST_SAMPLING" (by decide)
  have hsL := shapeDefinesDisjoint_lookup_none p h "LOG_DEPTH_READ_ONLY" (by decide)
  have hsD := shapeDefinesDisjoint_lookup_none p h "DEPTH_TEST" (by decide)
  have hsC := shapeDefinesDisjoint_lookup_none p h "CLIPPING_PLANES" (by decide)
  have hsDI := shapeDefinesDisjoint_lookup_none p h
    "DEPTH_INTERSECTION_INDEX" (by decide)
  have hsCI := shapeDefinesDisjoint_lookup_none p h
    "CLIPPING_PLANES_INTERSECTION_INDEX" (by decide)
  refine ⟨?_, ?_, ?_, ?_, ?_, ?_, ?_, ?_⟩
  · rw [hasDefine, fragmentDefinesOf_eq]
    cases hbe : Cartesian3.equals p.paddingBefore Cartesian3.ZERO <;>
      cases hae : Cartesian3.equals p.paddingAfter Cartesian3.ZERO <;>
      simp [lookupDefine_append, lookupDefine_ite, lookupDefine, clipDefineSeg,
        depthDefineSeg, shapeKindDefineSeg, interDefineSeg, miscDefineSeg,
        hsP, hbe, hae, ← Cartesian3.equals_iff, ← Cartesian3.equals_eq_false_iff]
  · rw [hasDefine, fragmentDefinesOf_eq]
    cases hj : p.jitter <;>
      simp [lookupDefine_append, lookupDefine_ite, lookupDefine, clipDefineSeg,
        depthDefineSeg, shapeKindDefineSeg, interDefineSeg, miscDefineSeg,
        hsJ, hj]
  · rw [hasDefine, fragmentDefinesOf_eq]
    cases hn : p.nearestSampling <;>
      simp [lookupDefine_append, lookupDefine_ite, lookupDefine, clipDefineSeg,
        depthDefineSeg, shapeKindDefineSeg, interDefineSeg, miscDefineSeg,
        hsN, hn]
  · rw [hasDefine, fragmentDefinesOf_eq]
    cases hu : p.useLogDepth <;>
      simp [lookupDefine_append, lookupDefine_ite, lookupDefine, clipDefineSeg,
        depthDefineSeg, shapeKindDefineSeg, interDefineSeg, miscDefineSeg,
        hsL, hu]
  · rw [hasDefine, fragmentDefinesOf_eq]
    cases hd : p.depthTest <;>
      simp [lookupDefine_append, lookupDefine_ite, lookupDefine, clipDefineSeg,
        depthDefineSeg, shapeKindDefineSeg, interDefineSeg, miscDefineSeg,
        hsD, hd]
  · rw [hasDefine, fragmentDefinesOf_eq]
    by_cases hl : 0 < clipLen p.clippingPlanes <;>
      simp [lookupDefine_append, lookupDefine_ite, lookupDefine, clipDefineSeg,
        depthDefineSeg, shapeKindDefineSeg, interDefineSeg, miscDefineSeg,
        hsC, hl]
  · intro hd
    constructor
    · rw [hasDefine, fragmentDefinesOf_eq]
      simp [lookupDefine_append, lookupDefine_ite, lookupDefine, clipDefineSeg,
        depthDefineSeg, shapeKindDefineSeg, interDefineSeg, miscDefineSeg,
        hsDI, hd]
    · rw [fragmentLinesOf_eq]
      simp [List.mem_append, mem_clipLineSeg, mem_depthLineSeg,
        mem_shapeKindLineSeg, hd]
  · intro hcl
    constructor
    · rw [hasDefine, fragmentDefinesOf_eq]
      simp [lookupDefine_append, lookupDefine_ite, lookupDefine, clipDefineSeg,
        depthDefineSeg, shapeKindDefineSeg, interDefineSeg, miscDefineSeg,
        hsCI, hcl]
    · rw [fragmentLinesOf_eq]
      simp [List.mem_append, mem_clipLineSeg, mem_depthLineSeg,
        mem_shapeKindLineSeg, hcl]

instance shapeDefinesDisjointDecidable (p : VoxelPrimitive) :
    Decidable (shapeDefinesDisjoint p) :=
  inferInstanceAs
    (Decidable (∀ k ∈ p.shape.shaderDefines.map Prod.fst, k ∉ reservedDefineNames))

/-- Claim C5: for a BOX build, the UV-conversion fragment appears
strictly before the box intersection-test fragment in the assembled
fragment-stage sequence; for CYLINDER and ELLIPSOID builds, the shape
intersection-test fragment appears strictly before the UV-conversion
fragment. -/
theorem shape_fragment_ordering (p : VoxelPrimitive) :
    (p.provider.shape = "BOX" →
      [Frag.convertUvToBox, Frag.IntersectBox].Sublist (fragmentLinesOf p))
    ∧ (p.provider.shape = "CYLINDER" →
      [Frag.IntersectCylinder, Frag.convertUvToCylinder].Sublist
        (fragmentLinesOf p))
    ∧ (p.provider.shape = "ELLIPSOID" →
      [Frag.IntersectEllipsoid, Frag.convertUvToEllipsoid].Sublist
        (fragmentLinesOf p)) := by
  refine ⟨fun hs => ?_, fun hs => ?_, fun hs => ?_⟩ <;>
    rw [fragmentLinesOf_eq, hs] <;>
    simp only [List.append_assoc]
  · have h1 : [Frag.convertUvToBox, Frag.IntersectBox].Sublist
        (shapeKindLineSeg "BOX" ++ [Frag.VoxelFS]) := by decide
    have h2 := h1.trans
      (List.sublist_append_right (depthLineSeg p.depthTest) _)
    have h3 := h2.trans
      (List.sublist_append_right (clipLineSeg (clipLen p.clippingPlanes)) _)
    exact h3.trans (List.sublist_append_right _ _)
  · have h1 : [Frag.IntersectCylinder, Frag.convertUvToCylinder].Sublist
        (shapeKindLineSeg "CYLINDER" ++ [Frag.VoxelFS]) := by decide
    have h2 := h1.trans
      (List.sublist_append_right (depthLineSeg p.depthTest) _)
    have h3 := h2.trans
      (List.sublist_append_right (clipLineSeg (clipLen p.clippingPlanes)) _)
    exact h3.trans (List.sublist_append_right _ _)
  · have h1 : [Frag.IntersectEllipsoid, Frag.convertUvToEllipsoid].Sublist
        (shapeKindLineSeg "ELLIPSOID" ++ [Frag.VoxelFS]) := by decide
    have h2 := h1.trans
      (List.sublist_append_right (depthLineSeg p.depthTest) _)
    have h3 := h2.trans
      (List.sublist_append_right (clipLineSeg (clipLen p.clippingPlanes)) _)
    exact h3.trans (List.sublist_append_right _ _)

/-- A minimal BOX configuration. -/
def witnessPrimitiveBox : VoxelPrimitive :=
  { customShader :=
      { fragmentShaderText := "customShaderText", uniformMap := [], uniforms := [] }
    uniformMap := []
    clippingPlanes := none
    depthTest := false
    provider := { shape := "BOX" }
    shape := { shaderDefines := [], shaderMaximumIntersectionsLength := 3 }
    paddingBefore := Cartesian3.ZERO
    paddingAfter := Cartesian3.ZERO
    useLogDepth := false
    jitter := false
    nearestSampling := false
    traversal := { sampleCount := 32 } }

/-- A minimal CYLINDER configuration. -/
def witnessPrimitiveCylinder : VoxelPrimitive :=
  { witnessPrimitiveBox with provider := { shape := "CYLINDER" } }

/-- A minimal ELLIPSOID configuration. -/
def witnessPrimitiveEllipsoid : VoxelPrimitive :=
  { witnessPrimitiveBox with provider := { shape := "ELLIPSOID" } }

/-- Witness for C5 at the three supported shape kinds. -/
theorem shape_fragment_ordering_witness :
    [Frag.convertUvToBox, Frag.IntersectBox].Sublist
      (fragmentLinesOf witnessPrimitiveBox)
    ∧ [Frag.IntersectCylinder, Frag.convertUvToCylinder].Sublist
      (fragmentLinesOf witnessPrimitiveCylinder)
    ∧ [Frag.IntersectEllipsoid, Frag.convertUvToEllipsoid].Sublist
      (fragmentLinesOf witnessPrimitiveEllipsoid) :=
  ⟨(shape_fragment_ordering witnessPrimitiveBox).1 rfl,
   (shape_fragment_ordering witnessPrimitiveCylinder).2.1 rfl,
   (shape_fragment_ordering witnessPrimitiveEllipsoid).2.2 rfl⟩

/-- A configuration with non-zero `paddingBefore`, jitter and log-depth
on, nearest-sampling off, depth test off and no clipping collection. -/
def witnessPrimitiveC6 : VoxelPrimitive :=
  { witnessPrimitiveBox with
    paddingBefore := { x := 1, y := 0, z := 0 }
    useLogDepth := true
    jitter := true }

/-- Witness for C6: on `witnessPrimitiveC6` the `PADDING`, `JITTER` and
`LOG_DEPTH_READ_ONLY` defines are present, and with depth test off and
clipping absent the depth and clipping fragments are absent. -/
theorem conditional_defines_correct_witness :
    hasDefine "PADDING" (fragmentDefinesOf witnessPrimitiveC6) = true
    ∧ hasDefine "JITTER" (fragmentDefinesOf witnessPrimitiveC6) = true
    ∧ hasDefine "LOG_DEPTH_READ_ONLY" (fragmentDefinesOf witnessPrimitiveC6) = true
    ∧ Frag.IntersectDepth ∉ fragmentLinesOf witnessPrimitiveC6
    ∧ Frag.IntersectClippingPlanes ∉ fragmentLinesOf witnessPrimitiveC6 := by
  have h := conditional_defines_correct witnessPrimitiveC6 (by decide)
  exact ⟨h.1.mpr (by decide), h.2.1.mpr rfl, h.2.2.2.1.mpr rfl,
    (h.2.2.2.2.2.2.1 rfl).2, (h.2.2.2.2.2.2.2 rfl).2⟩

/-- First-match lookup of a key of the shape-define mapping in the
loop's output: skipped when the value is `undefined`, canonicalized to
no-text when the value is `true`, kept verbatim otherwise. -/
theorem lookupDefine_shapeDefineSeg (ds : List (String × JsVal)) (k : String)
    (v : JsVal) (hmem : (k, v) ∈ ds) (hnodup : (ds.map Prod.fst).Nodup) :
    lookupDefine k (shapeDefineSeg ds) =
      (if v = JsVal.undef then none
       else some (if v = JsVal.boolean true then JsVal.undef else v)) := by
  induction ds with
  | nil => cases hmem
  | cons kv rest ih =>
      rw [shapeDefineSeg_cons, lookupDefine_append]
      rcases List.mem_cons.mp hmem with heq | hmem'
      · have hkv : kv = (k, v) := heq.symm
        subst hkv
        have hk : k ∉ rest.map Prod.fst := by
          rw [List.map_cons, List.nodup_cons] at hnodup
          exact hnodup.1
        by_cases hv : v = JsVal.undef
        · simp [hv, JsVal.isDefined, lookupDefine,
            shapeDefineSeg_lookup_none rest k hk]
        · have hd : v.isDefined = true := by
            cases v <;> simp [JsVal.isDefined] <;> simp at hv
          simp [hd, lookupDefine, hv]
      · have hk1 : ¬kv.1 = k := by
          intro he
          rw [List.map_cons, List.nodup_cons] at hnodup
          exact hnodup.1 (he ▸ List.mem_map_of_mem Prod.fst hmem')
        have hrest : (rest.map Prod.fst).Nodup := by
          rw [List.map_cons, List.nodup_cons] at hnodup
          exact hnodup.2
        by_cases hd : kv.2.isDefined <;>
          simp [hd, lookupDefine, hk1, ih hmem' hrest]

/-- Claim C7: a shape-define entry whose value is the absent marker
(`undefined`) produces no define at all in the assembled define table;
an entry whose value is the present-with-no-text marker (`true`)
produces a define with no substitution text; every other entry produces
a define carrying its value as substitution text. -/
theorem shape_define_suppression (p : VoxelPrimitive) (k : String) (v : JsVal)
    (hmem : (k, v) ∈ p.shape.shaderDefines)
    (hnodup : (p.shape.shaderDefines.map Prod.fst).Nodup)
    (hres : shapeDefinesDisjoint p) :
    (v = JsVal.undef → k ∉ (fragmentDefinesOf p).map Prod.fst)
    ∧ lookupDefine k (fragmentDefinesOf p) =
      (if v = JsVal.undef then none
       else some (if v = JsVal.boolean true then JsVal.undef else v)) := by
  have hkres : k ∉ reservedDefineNames :=
    hres k (List.mem_map_of_mem Prod.fst hmem)
  have hc : lookupDefine k
      (clipDefineSeg (clipLen p.clippingPlanes) (clipUnion p.clippingPlanes)) =
      none := by
    rw [lookupDefine_eq_none_iff, mem_clipDefineSeg_names]
    rintro ⟨-, rfl | rfl | ⟨rfl, -⟩⟩ <;> exact hkres (by decide)
  have hdp : lookupDefine k (depthDefineSeg p.depthTest) = none := by
    rw [lookupDefine_eq_none_iff, mem_depthDefineSeg_names]
    rintro ⟨rfl, -⟩
    exact hkres (by decide)
  have hsk : lookupDefine k (shapeKindDefineSeg p.provider.shape) = none := by
    rw [lookupDefine_eq_none_iff, mem_shapeKindDefineSeg_names]
    rintro ⟨rfl, -⟩
    exact hkres (by decide)
  have hint : lookupDefine k
      (interDefineSeg p.shape.shaderMaximumIntersectionsLength
        (clipLen p.clippingPlanes) (clipUnion p.clippingPlanes) p.depthTest) =
      none := by
    rw [lookupDefine_eq_none_iff, mem_interDefineSeg_names]
    rintro (⟨rfl, -⟩ | ⟨rfl, -⟩ | rfl) <;> exact hkres (by decide)
  have hmisc : lookupDefine k
      (miscDefineSeg p.paddingBefore p.paddingAfter p.useLogDepth p.jitter
        p.nearestSampling p.traversal.sampleCount) = none := by
    rw [lookupDefine_eq_none_iff, mem_miscDefineSeg_names]
    rintro (⟨rfl, -⟩ | ⟨rfl, -⟩ | ⟨rfl, -⟩ | ⟨rfl, -⟩ | rfl) <;>
      exact hkres (by decide)
  have hmain : lookupDefine k (fragmentDefinesOf p) =
      (if v = JsVal.undef then none
       else some (if v = JsVal.boolean true then JsVal.undef else v)) := by
    rw [fragmentDefinesOf_eq]
    simp only [lookupDefine_append, hc, hdp, hsk, hint, hmisc,
      lookupDefine_shapeDefineSeg p.shape.shaderDefines k v hmem hnodup]
    by_cases hv : v = JsVal.undef <;> simp [hv]
  refine ⟨fun hv => ?_, hmain⟩
  rw [← lookupDefine_eq_none_iff, hmain, if_pos hv]

/-- A configuration whose shape contributes one `true`-valued define,
one absent define and one numeric define. -/
def witnessPrimitiveC7 : VoxelPrimitive :=
  { witnessPrimitiveEllipsoid with
    shape :=
      { shaderDefines :=
          [("SHAPE_ELLIPSOID", JsVal.boolean true),
           ("ELLIPSOID_HAS_RENDER_BOUNDS", JsVal.undef),
           ("ELLIPSOID_INTERSECTION_INDEX", JsVal.num 1)]
        shaderMaximumIntersectionsLength := 3 } }

/-- Witness for C7: the `true`-valued entry becomes a no-text define,
the absent entry yields no define at all, and the numeric entry keeps
its value. -/
theorem shape_define_suppression_witness :
    "ELLIPSOID_HAS_RENDER_BOUNDS" ∉
      (fragmentDefinesOf witnessPrimitiveC7).map Prod.fst
    ∧ lookupDefine "SHAPE_ELLIPSOID" (fragmentDefinesOf witnessPrimitiveC7) =
      some JsVal.undef
    ∧ lookupDefine "ELLIPSOID_INTERSECTION_INDEX"
      (fragmentDefinesOf witnessPrimitiveC7) = some (JsVal.num 1) := by
  refine ⟨?_, ?_, ?_⟩
  · exact (shape_define_suppression witnessPrimitiveC7
      "ELLIPSOID_HAS_RENDER_BOUNDS" JsVal.undef (by decide) (by decide)
      (by decide)).1 rfl
  · have h := (shape_define_suppression witnessPrimitiveC7
      "SHAPE_ELLIPSOID" (JsVal.boolean true) (by decide) (by decide)
      (by decide)).2
    simpa using h
  · have h := (shape_define_suppression witnessPrimitiveC7
      "ELLIPSOID_INTERSECTION_INDEX" (JsVal.num 1) (by decide) (by decide)
      (by decide)).2
    simpa using h

/-- Claim C8: every build's fragment-stage uniform declarations contain
the reserved megatexture sampler-array uniform, regardless of the
custom shader's content. -/
theorem megatexture_uniform_always_present (p : VoxelPrimitive) :
    ("sampler2D", "u_megatextureTextures[METADATA_COUNT]") ∈
      fragmentUniformsOf p := by
  rw [fragmentUniformsOf_eq]
  exact List.mem_append_right _ (by simp)

theorem lookup_isSome_of_mem (l : UniformMap) (x : String × Accessor)
    (hx : x ∈ l) : (l.lookup x.1).isSome = true := by
  induction l with
  | nil => cases hx
  | cons y ys ih =>
      rcases List.mem_cons.mp hx with rfl | h
      · rcases x with ⟨xk, xv⟩
        simp [List.lookup]
      · rcases y with ⟨yk, yv⟩
        by_cases he : (x.1 == yk) = true <;> simp [List.lookup, he, ih h]

/-- Re-merging the custom-shader map into an already merged map changes
nothing. -/
theorem combine_self_right (a b : UniformMap) :
    combine (combine a b) b = combine a b := by
  unfold combine
  rw [List.filter_append]
  have h2 : b.filter (fun p => (b.lookup p.1).isNone) = [] := by
    rw [List.filter_eq_nil_iff]
    intro x hx
    have hs := lookup_isSome_of_mem b x hx
    intro hn
    rcases hl : b.lookup x.1 with _ | v
    · rw [hl] at hs
      simp at hs
    · rw [hl] at hn
      simp at hn
  have h1 : ((a.filter fun p => (b.lookup p.1).isNone).filter
      fun p => (b.lookup p.1).isNone) =
      a.filter fun p => (b.lookup p.1).isNone := by
    induction a with
    | nil => rfl
    | cons y ys ih =>
        by_cases hy : ((b.lookup y.1).isNone = true) <;>
          simp [List.filter_cons, hy, ih]
  rw [h1, h2, List.append_nil]

/-- Claim C9: the build is a pure, deterministic function of its input
configuration, and re-invoking it on the primitive left by a previous
build reproduces the previous result exactly (byte-identical shader
builder state, identical uniform map, identical primitive state). -/
theorem build_repeat_deterministic (p : VoxelPrimitive) :
    buildVoxelRenderResources ((buildVoxelRenderResources p).2) =
      buildVoxelRenderResources p := by
  rcases p with ⟨cs, um, cp, dt, prov, shp, pb, pa, uld, jit, ns, trav⟩
  simp [buildVoxelRenderResources, combine_self_right]

/-- Claim C10: when the clipping collection is missing or its enabled
flag is false, the build behaves exactly as with zero clipping planes:
reported length 0, no clipping defines, no clipping fragment, no
clipping slot, and an intersection count untouched by clipping. -/
theorem clipping_disabled_is_no_clipping (p : VoxelPrimitive)
    (h : p.clippingPlanes = none ∨
      ∃ cp, p.clippingPlanes = some cp ∧ cp.enabled = false)
    (hres : shapeDefinesDisjoint p) :
    (buildVoxelRenderResources p).1.clippingPlanesLength = 0
    ∧ hasDefine "CLIPPING_PLANES" (fragmentDefinesOf p) = false
    ∧ hasDefine "CLIPPING_PLANES_COUNT" (fragmentDefinesOf p) = false
    ∧ hasDefine "CLIPPING_PLANES_UNION" (fragmentDefinesOf p) = false
    ∧ hasDefine "CLIPPING_PLANES_INTERSECTION_INDEX" (fragmentDefinesOf p) = false
    ∧ Frag.IntersectClippingPlanes ∉ fragmentLinesOf p
    ∧ lookupDefine "INTERSECTION_COUNT" (fragmentDefinesOf p) =
      some (JsVal.num (p.shape.shaderMaximumIntersectionsLength +
        (if p.depthTest then 1 else 0))) := by
  have hlen : clipLen p.clippingPlanes = 0 := by
    rcases h with h0 | ⟨cp, hcp, he⟩
    · simp [clipLen, h0]
    · simp [clipLen, hcp, he]
  have hsCP := shapeDefinesDisjoint_lookup_none p hres
    "CLIPPING_PLANES" (by decide)
  have hsCC := shapeDefinesDisjoint_lookup_none p hres
    "CLIPPING_PLANES_COUNT" (by decide)
  have hsCU := shapeDefinesDisjoint_lookup_none p hres
    "CLIPPING_PLANES_UNION" (by decide)
  have hsCI := shapeDefinesDisjoint_lookup_none p hres
    "CLIPPING_PLANES_INTERSECTION_INDEX" (by decide)
  have hsIC := shapeDefinesDisjoint_lookup_none p hres
    "INTERSECTION_COUNT" (by decide)
  refine ⟨?_, ?_, ?_, ?_, ?_, ?_, ?_⟩
  · rw [build_clippingPlanesLength, hlen]
  · rw [hasDefine, fragmentDefinesOf_eq]
    simp [lookupDefine_append, lookupDefine_ite, lookupDefine, clipDefineSeg,
      depthDefineSeg, shapeKindDefineSeg, interDefineSeg, miscDefineSeg,
      hsCP, hlen]
  · rw [hasDefine, fragmentDefinesOf_eq]
    simp [lookupDefine_append, lookupDefine_ite, lookupDefine, clipDefineSeg,
      depthDefineSeg, shapeKindDefineSeg, interDefineSeg, miscDefineSeg,
      hsCC, hlen]
  · rw [hasDefine, fragmentDefinesOf_eq]
    simp [lookupDefine_append, lookupDefine_ite, lookupDefine, clipDefineSeg,
      depthDefineSeg, shapeKindDefineSeg, interDefineSeg, miscDefineSeg,
      hsCU, hlen]
  · rw [hasDefine, fragmentDefinesOf_eq]
    simp [lookupDefine_append, lookupDefine_ite, lookupDefine, clipDefineSeg,
      depthDefineSeg, shapeKindDefineSeg, interDefineSeg, miscDefineSeg,
      hsCI, hlen]
  · rw [fragmentLinesOf_eq]
    simp [List.mem_append, mem_clipLineSeg, mem_depthLineSeg,
      mem_shapeKindLineSeg, hlen]
  · rw [fragmentDefinesOf_eq]
    by_cases hd : p.depthTest <;>
      simp [lookupDefine_append, lookupDefine_ite, lookupDefine, clipDefineSeg,
        depthDefineSeg, shapeKindDefineSeg, interDefineSeg, miscDefineSeg,
        clipAdvance, hsIC, hlen, hd]

/-- A configuration whose clipping collection is present but disabled,
while reporting three planes. -/
def witnessPrimitiveC10 : VoxelPrimitive :=
  { witnessPrimitiveBox with
    clippingPlanes :=
      some { enabled := false, length := 3, unionClippingRegions := true }
    depthTest := true }

/-- Witness for C10: the disabled collection reports three planes, yet
the build treats clipping as absent and the intersection count is
`M + 1 = 4` (depth only). -/
theorem clipping_disabled_is_no_clipping_witness :
    (buildVoxelRenderResources witnessPrimitiveC10).1.clippingPlanesLength = 0
    ∧ hasDefine "CLIPPING_PLANES" (fragmentDefinesOf witnessPrimitiveC10) = false
    ∧ Frag.IntersectClippingPlanes ∉ fragmentLinesOf witnessPrimitiveC10
    ∧ lookupDefine "INTERSECTION_COUNT" (fragmentDefinesOf witnessPrimitiveC10) =
      some (JsVal.num 4) := by
  have h := clipping_disabled_is_no_clipping witnessPrimitiveC10
    (Or.inr ⟨_, rfl, rfl⟩) (by decide)
  refine ⟨h.1, h.2.1, h.2.2.2.2.2.1, ?_⟩
  have h7 := h.2.2.2.2.2.2
  simpa [witnessPrimitiveC10, witnessPrimitiveBox] using h7

/-- A configuration whose custom shader contributes one uniform that is
not in the primitive's base uniform map. -/
def witnessPrimitiveC2 : VoxelPrimitive :=
  { witnessPrimitiveBox with
    customShader :=
      { fragmentShaderText := "customShaderText"
        uniformMap := [("u_customUniform", 7)]
        uniforms := [("u_customUniform", "float")] } }

/-- Counterexample to claim C2 as stated: after one build on
`witnessPrimitiveC2` the primitive's uniform-map field has changed,
because line 46 assigns the merged map back to
`primitive._uniformMap`. -/
theorem build_mutates_primitive_counterexample :
    (buildVoxelRenderResources witnessPrimitiveC2).2.uniformMap ≠
      witnessPrimitiveC2.uniformMap := by decide

/-- Claim C2 amended: one build's only side effect on the input
primitive is replacing its uniform map with the merge of the base map
and the custom shader's map; every other field of the primitive is
unchanged, and the rest of the result depends only on the input
snapshot. -/
theorem build_single_side_effect (p : VoxelPrimitive) :
    (buildVoxelRenderResources p).2 =
      { p with uniformMap := combine p.uniformMap p.customShader.uniformMap } :=
  rfl

/-- A configuration whose provider reports the unrecognized shape kind
SPHERE. -/
def witnessPrimitiveSphere : VoxelPrimitive :=
  { witnessPrimitiveBox with provider := { shape := "SPHERE" } }

/-- Counterexample to claim C4 as stated: on the unrecognized shape
kind "SPHERE" the build does not raise; it completes and returns a
program with no shape fragments at all, because the if-chain at lines
124-144 has no else branch.  The full fragment sequence and the emitted
`INTERSECTION_COUNT` define of the completed build are shown. -/
theorem unknown_shape_build_completes :
    fragmentLinesOf witnessPrimitiveSphere =
      [Frag.customText "customShaderText", Frag.lineMarker, Frag.Octree,
       Frag.IntersectionUtils, Frag.Megatexture, Frag.VoxelFS]
    ∧ lookupDefine "INTERSECTION_COUNT"
      (fragmentDefinesOf witnessPrimitiveSphere) = some (JsVal.num 3) := by
  decide

/-- Claim C4 amended: for a shape kind that is none of BOX, CYLINDER,
ELLIPSOID, the build completes without raising, adds no shape-specific
fragments and no shape define, and still assembles the rest of the
program (including the `INTERSECTION_COUNT` and `SAMPLE_COUNT`
defines). -/
theorem unknown_shape_falls_through (p : VoxelPrimitive)
    (hb : p.provider.shape ≠ "BOX") (hc : p.provider.shape ≠ "CYLINDER")
    (he : p.provider.shape ≠ "ELLIPSOID") :
    fragmentLinesOf p =
      [Frag.customText p.customShader.fragmentShaderText, Frag.lineMarker,
       Frag.Octree, Frag.IntersectionUtils, Frag.Megatexture]
      ++ clipLineSeg (clipLen p.clippingPlanes)
      ++ depthLineSeg p.depthTest ++ [Frag.VoxelFS]
    ∧ hasDefine "INTERSECTION_COUNT" (fragmentDefinesOf p) = true
    ∧ hasDefine "SAMPLE_COUNT" (fragmentDefinesOf p) = true := by
  refine ⟨?_, ?_, ?_⟩
  · rw [fragmentLinesOf_eq]
    simp [shapeKindLineSeg, hb, hc, he]
  · rw [hasDefine_iff_mem, fragmentDefinesOf_eq]
    rw [List.map_append, List.map_append, List.map_append, List.map_append,
      List.map_append]
    exact List.mem_append_left _ (List.mem_append_right _
      ((mem_interDefineSeg_names _ _ _ _ _).mpr (Or.inr (Or.inr rfl))))
  · rw [hasDefine_iff_mem, fragmentDefinesOf_eq]
    rw [List.map_append, List.map_append, List.map_append, List.map_append,
      List.map_append]
    exact List.mem_append_right _
      ((mem_miscDefineSeg_names _ _ _ _ _ _ _).mpr
        (Or.inr (Or.inr (Or.inr (Or.inr rfl)))))

/-- Witness for the amended C4 at the concrete SPHERE configuration. -/
theorem unknown_shape_falls_through_witness :
    fragmentLinesOf witnessPrimitiveSphere =
      [Frag.customText "customShaderText", Frag.lineMarker, Frag.Octree,
       Frag.IntersectionUtils, Frag.Megatexture]
      ++ clipLineSeg (clipLen witnessPrimitiveSphere.clippingPlanes)
      ++ depthLineSeg witnessPrimitiveSphere.depthTest ++ [Frag.VoxelFS]
    ∧ hasDefine "SAMPLE_COUNT" (fragmentDefinesOf witnessPrimitiveSphere) =
      true := by
  have h := unknown_shape_falls_through witnessPrimitiveSphere
    (by decide) (by decide) (by decide)
  exact ⟨h.1, h.2.2⟩
